import Mathlib

/-!
Shallow embedding of the interpretation-and-rendering engine of the
repository (src/slackbot/bin/appctl_slack.py and src/mwctl_slack.py).

Strings are modelled as Lean `String`s, with all scanning implemented by
structural recursion over `String.data : List Char` so that every
definition evaluates by `decide`.  The ASCII behaviour of Python
`str.strip` / `str.upper` / `str.lower` is modelled (the diagnostic text
handled by these scripts is ASCII apart from the emoji badges, which both
Python and Lean treat as single characters).

Python `str.splitlines` is modelled for `\n`-separated text (the only
line terminator in the tool output these scripts consume): the segment
after a final terminator is dropped and an empty string yields no lines.

`None`-able values are modelled with `Option`; a Python dict with a fixed
label set is modelled by a structure with one `Option String` field per
label (a present-but-empty value is `some ""`, matching dict membership
semantics used by the source's first-occurrence-wins updates).
-/

set_option maxHeartbeats 4000000
set_option maxRecDepth 4096

/-! ## Basic character and string helpers (Python semantics) -/

/-- Python `\s` / `str.strip` whitespace over ASCII. -/
def isWs (c : Char) : Bool :=
  c = ' ' || c = '\t' || c = '\n' || c = '\r' || c = '\x0b' || c = '\x0c'

/-- Strip leading and trailing whitespace from a character list. -/
def trimData (cs : List Char) : List Char :=
  ((cs.dropWhile isWs).reverse.dropWhile isWs).reverse

/-- Python `str.strip()`. -/
def pyTrim (s : String) : String := String.mk (trimData s.data)

/-- Python `str.rstrip()`. -/
def pyRstrip (s : String) : String :=
  String.mk (s.data.reverse.dropWhile isWs).reverse

/-- Python `str.lower()` (ASCII). -/
def pyLower (s : String) : String := String.mk (s.data.map Char.toLower)

/-- Python `str.upper()` (ASCII). -/
def pyUpper (s : String) : String := String.mk (s.data.map Char.toUpper)

/-- Python `str.startswith`. -/
def pyStartsWith (s pre : String) : Bool := pre.data.isPrefixOf s.data

/-- Python `str.endswith` for a single-character suffix. -/
def pyEndsWithChar (s : String) (c : Char) : Bool :=
  match s.data.reverse with
  | [] => false
  | d :: _ => d = c

/-- Python `s[:-1]`: drop the final character. -/
def pyDropLast (s : String) : String := String.mk s.data.dropLast

/-- Python `s[:n]`: keep the first `n` characters (code points). -/
def strTake (s : String) (n : Nat) : String := String.mk (s.data.take n)

/-- Number of characters (code points), Python `len`. -/
def strLen (s : String) : Nat := s.data.length

/-- Containment of `pat` as a contiguous infix of `hay` (Python `in`). -/
def infixAux (pat : List Char) : List Char → Bool
  | [] => pat.isEmpty
  | c :: cs => pat.isPrefixOf (c :: cs) || infixAux pat cs

/-- Python `pat in hay` substring test. -/
def containsSub (hay pat : String) : Bool := infixAux pat.data hay.data

/-- Drop `pre` from the front of `cs`, if it is a prefix. -/
def dropPre : List Char → List Char → Option (List Char)
  | [], rest => some rest
  | _, [] => none
  | p :: ps, c :: cs => if p = c then dropPre ps cs else none

/-- Split on the first occurrence of `sep`: Python `s.split(sep, 1)`. -/
def splitFirstAux (sep : List Char) : List Char → Option (List Char × List Char)
  | [] => if sep.isEmpty then some ([], []) else none
  | c :: cs =>
    if sep.isPrefixOf (c :: cs) then some ([], (c :: cs).drop sep.length)
    else
      match splitFirstAux sep cs with
      | some (pre, post) => some (c :: pre, post)
      | none => none

/-- Python `s.split(sep, 1)` as a pair.  Callers in the source only read
the second component after guarding that `sep` occurs in `s`; when the
separator is absent the pair `(s, "")` is returned. -/
def splitFirstD (s sep : String) : String × String :=
  match splitFirstAux sep.data s.data with
  | some (pre, post) => (String.mk pre, String.mk post)
  | none => (s, "")

/-- Python `str.splitlines` for `\n`-separated text. -/
def splitLinesAux (acc : List Char) : List Char → List String
  | [] => [String.mk acc.reverse]
  | c :: cs =>
    if c = '\n' then String.mk acc.reverse :: splitLinesAux [] cs
    else splitLinesAux (c :: acc) cs

/-- Python `str.splitlines` (a final terminator yields no extra empty
line and the empty string has no lines). -/
def splitLines (s : String) : List String :=
  match s.data with
  | [] => []
  | c :: cs =>
    let segs := splitLinesAux [] (c :: cs)
    if pyEndsWithChar s '\n' then segs.dropLast else segs

/-- Python `"\n".join`. -/
def joinNl : List String → String
  | [] => ""
  | [x] => x
  | x :: xs => x ++ "\n" ++ joinNl xs

/-- Left-justify to width `w` with spaces, Python `str.ljust` / `{:<w}`. -/
def ljust (s : String) (w : Nat) : String :=
  s ++ String.mk (List.replicate (w - strLen s) ' ')

/-- Numeric value of a decimal digit run. -/
def natOfDigits (ds : List Char) : Nat :=
  ds.foldl (fun n c => n * 10 + (c.toNat - 48)) 0

/-- Python `int(s)` on ASCII decimal text with optional sign and
surrounding whitespace (digit-grouping underscores are not modelled; the
HTTP codes parsed by the source never carry them).  `none` models the
`ValueError` branch. -/
def pyInt (s : String) : Option Int :=
  match trimData s.data with
  | '-' :: ds => if ds ≠ [] && ds.all Char.isDigit then some (-(natOfDigits ds : Int)) else none
  | '+' :: ds => if ds ≠ [] && ds.all Char.isDigit then some (natOfDigits ds : Int) else none
  | ds => if ds ≠ [] && ds.all Char.isDigit then some (natOfDigits ds : Int) else none

/-! ## TextNormalizer: `strip_ansi` (both source files define it identically)

The compiled pattern is ESC, a bracket, a run of parameter bytes
`0x30`-`0x3F`, a run of intermediate bytes `0x20`-`0x2F`, then one final
byte `0x40`-`0x7E`.  Because the three character classes are pairwise
disjoint, Python's leftmost greedy matching is maximal-munch without
effective backtracking: from an `ESC [`, consume the maximal parameter
run, then the maximal intermediate run, then require one final byte.
`re.sub` removes non-overlapping matches left to right, resuming after
each removed match.  The recursion is driven by a character-count fuel
so that it is structural. -/

def escChar : Char := '\x1b'

def isParamByte (c : Char) : Bool := 0x30 ≤ c.toNat && c.toNat ≤ 0x3f

def isInterByte (c : Char) : Bool := 0x20 ≤ c.toNat && c.toNat ≤ 0x2f

def isFinalByte (c : Char) : Bool := 0x40 ≤ c.toNat && c.toNat ≤ 0x7e

/-- After `ESC [`, try to consume parameter bytes, then intermediate
bytes, then one final byte; return the remaining characters. -/
def ansiMatchEnd (cs : List Char) : Option (List Char) :=
  match (cs.dropWhile isParamByte).dropWhile isInterByte with
  | c :: rest => if isFinalByte c then some rest else none
  | [] => none

def stripAnsiAux : Nat → List Char → List Char
  | 0, cs => cs
  | _ + 1, [] => []
  | n + 1, c :: cs =>
    if c = escChar then
      match cs with
      | '[' :: rest =>
        match ansiMatchEnd rest with
        | some rest2 => stripAnsiAux n rest2
        | none => c :: stripAnsiAux n cs
      | _ => c :: stripAnsiAux n cs
    else c :: stripAnsiAux n cs

/-- `strip_ansi` of both source files: remove every match of the ANSI
escape pattern in one left-to-right pass. -/
def strip_ansi (text : String) : String :=
  String.mk (stripAnsiAux text.data.length text.data)

/-! ## StateClassifier (identical in both source files) -/

/-- `normalize_state`: note the final `return s or "UNKNOWN"` returns the
trimmed upper-cased input itself whenever it is non-empty. -/
def normalize_state (state : String) : String :=
  let s := pyUpper (pyTrim state)
  if s = "RUNNING" || s = "ACTIVE" then "RUNNING"
  else if s = "STOPPED" || s = "INACTIVE" || s = "DEAD" then "STOPPED"
  else if s = "FAILED" || s = "DOWN" || s = "ERROR" then "FAILED"
  else if s = "" then "UNKNOWN" else s

/-- `state_badge`. -/
def state_badge (state : String) : String :=
  let st := normalize_state state
  if st = "RUNNING" then "🟢"
  else if st = "STOPPED" || st = "FAILED" then "🔴"
  else if st = "DEGRADED" || st = "WARNING" then "🟡"
  else "⚪"

/-- `is_active_icon` (appctl). -/
def is_active_icon (is_active : String) : String :=
  let s := pyLower (pyTrim is_active)
  if s = "active" then "🟢"
  else if s = "inactive" || s = "failed" || s = "dead" then "🔴"
  else if s = "activating" || s = "deactivating" || s = "reloading" then "🟡"
  else "⚪"

/-- `health_icon_from_is_active` (appctl multi-app dashboard). -/
def health_icon_from_is_active (state_val listen_val : String) : String :=
  let s := pyLower (pyTrim state_val)
  let l := pyLower (pyTrim listen_val)
  if s = "active" && l = "listening" then "🟢"
  else if s = "active" then "🟡"
  else if s = "failed" || s = "inactive" || s = "dead" then "🔴"
  else if s = "activating" || s = "deactivating" || s = "reloading" then "🟡"
  else "⚪"

/-! ## Line matchers

Each `re.match` pattern used by the source is a named matcher.  A header
pattern reads: optional leading whitespace, the label, optional
whitespace, a colon, then a non-empty remainder whose stripped form is
the captured value (the regex group is `(.+)` followed by `\s*$`, and
the source strips the group, so a remainder of only whitespace yields
the value `""` while an empty remainder fails to match). -/

/-- Matcher for a header pattern with optional whitespace before the
colon (`Label \s* : \s* value`). -/
def matchLabelLine (label line : String) : Option String :=
  match dropPre label.data (line.data.dropWhile isWs) with
  | none => none
  | some rest =>
    match rest.dropWhile isWs with
    | ':' :: r => if r = [] then none else some (String.mk (trimData r))
    | _ => none

/-- Matcher for a pattern whose literal includes the colon
(for example `APP:`, `Component:`, `State:`, `Main-State:`). -/
def matchPrefixLine (pre line : String) : Option String :=
  match dropPre pre.data (line.data.dropWhile isWs) with
  | none => none
  | some r => if r = [] then none else some (String.mk (trimData r))

/-- Characters allowed in a multi-app sub-line key (`[A-Za-z ]`). -/
def isKeyChar (c : Char) : Bool := c.isAlpha || c = ' '

/-- Matcher for the multi-app sub-line pattern: two leading whitespace
characters, a non-empty key of letters and spaces, optional whitespace,
a colon, then a non-empty value.  Key is stripped and lower-cased, value
stripped, as in the source. -/
def matchKvLine (line : String) : Option (String × String) :=
  match line.data with
  | c1 :: c2 :: rest =>
    if isWs c1 && isWs c2 then
      let key := rest.takeWhile isKeyChar
      if key = [] then none
      else
        match (rest.dropWhile isKeyChar).dropWhile isWs with
        | ':' :: r =>
          if r = [] then none
          else some (pyLower (String.mk (trimData key)), String.mk (trimData r))
        | _ => none
    else none
  | _ => none

/-- Python `\w` word character (ASCII). -/
def isWordChar (c : Char) : Bool := c.isAlphanum || c = '_'

/-- All matches of a colon followed by two to five digits and a word
boundary (`re.findall` of the port pattern).  `findall` resumes after
each match; since a digit can never start a new match, resuming at the
next character is equivalent and keeps the recursion structural. -/
def findPorts : List Char → List String
  | [] => []
  | c :: cs =>
    if c = ':' then
      let ds := cs.takeWhile Char.isDigit
      let boundaryOk :=
        match cs.dropWhile Char.isDigit with
        | [] => true
        | r :: _ => !isWordChar r
      if 2 ≤ ds.length && ds.length ≤ 5 && boundaryOk then
        String.mk ds :: findPorts cs
      else findPorts cs
    else findPorts cs

/-! ## Data model -/

/-- The fixed header label set extracted by `parse_header_details`. -/
structure HeaderInfo where
  client : Option String := none
  host : Option String := none
  env : Option String := none
  app : Option String := none
  service : Option String := none
  runAs : Option String := none
deriving Repr, DecidableEq

/-- The flat record built by the single-unit status parsers.  The source
dict always carries a `State` key; the remaining keys are present only
when found (`Option`). -/
structure StatusInfo where
  hdr : HeaderInfo := {}
  state : String := "UNKNOWN"
  since : Option String := none
  uptime : Option String := none
  memory : Option String := none
  port : Option String := none
deriving Repr, DecidableEq

/-- One per-app row of the multi-app report (all raw strings, defaulted
to `""` as in the source dict literal). -/
structure AppRow where
  app : String := ""
  service : String := ""
  port : String := ""
  runAs : String := ""
  state : String := ""
  listen : String := ""
deriving Repr, DecidableEq

/-- One per-host section of the multi-app report. -/
structure HostSection where
  client : String := ""
  host : String := ""
  env : String := ""
  apps : List AppRow := []
deriving Repr, DecidableEq

/-- One row of a componentized-app report. -/
structure ComponentRow where
  name : String
  unit : String
  state : String
deriving Repr, DecidableEq

/-- One per-host section of a componentized-app report. -/
structure ComponentSection where
  client : String
  host : String
  env : String
  app : String
  rows : List ComponentRow
deriving Repr, DecidableEq

/-! ## HeaderExtractor -/

/-- Keep an already-found value, otherwise try the new match
(the source assigns only when `key not in info`). -/
def keepFirst (old : Option String) (m : Option String) : Option String :=
  match old with
  | some v => some v
  | none => m

/-- `parse_header_details` (appctl; `parse_status_details` of mwctl
inlines the identical scan): strip ANSI, split lines, right-strip each,
then first-occurrence-wins extraction of the six labels. -/
def parse_header_details (output : String) : HeaderInfo :=
  let lines := (splitLines (strip_ansi output)).map pyRstrip
  lines.foldl
    (fun info ln =>
      { client := keepFirst info.client (matchLabelLine "Client" ln)
        host := keepFirst info.host (matchLabelLine "Host" ln)
        env := keepFirst info.env (matchLabelLine "Env" ln)
        app := keepFirst info.app (matchLabelLine "App" ln)
        service := keepFirst info.service (matchLabelLine "Service" ln)
        runAs := keepFirst info.runAs (matchLabelLine "RunAs" ln) })
    {}

/-! ## SingleUnitParser -/

/-- First line whose stripped form starts with `Active:`, stripped
(`""` when absent, mirroring the source's accumulator default). -/
def activeLineOf (lines : List String) : String :=
  match lines.find? (fun ln => pyStartsWith (pyTrim ln) "Active:") with
  | some ln => pyTrim ln
  | none => ""

/-- Raw state word derived from the active line by substring search on
its lower-cased text (appctl `parse_status_details_systemctl`). -/
def stateFromActive (active_line : String) : String :=
  let low := pyLower active_line
  if containsSub low "running" then "RUNNING"
  else if containsSub low "inactive" || containsSub low "dead" then "STOPPED"
  else if containsSub low "failed" then "FAILED"
  else "UNKNOWN"

/-- Since/Uptime extraction of appctl `parse_status_details_systemctl`:
the text after the first literal `" since "` is split on the first `;`
into the pair; with no `;` present neither value is produced. -/
def sinceUptimeOf (active_line : String) : String × String :=
  if containsSub active_line " since " then
    let tail := pyTrim (splitFirstD active_line " since ").2
    if containsSub tail ";" then
      let p := splitFirstD tail ";"
      (pyTrim p.1, pyTrim p.2)
    else ("", "")
  else ("", "")

/-- Text after the first colon of a line (Python `ln.split(":", 1)[1]`;
every caller first checks the line starts with a label containing a
colon, so the colon is always present). -/
def afterFirstColon (ln : String) : String := (splitFirstD ln ":").2

/-- Memory extraction, appctl variant: no `break`, so the last matching
`Memory:` line wins. -/
def memoryOfLast (lines : List String) : Option String :=
  lines.foldl
    (fun acc ln =>
      if pyStartsWith (pyTrim ln) "Memory:" then some (pyTrim (afterFirstColon ln)) else acc)
    none

/-- Memory extraction, mwctl variant: `break` after the first match. -/
def memoryOfFirst (lines : List String) : Option String :=
  match lines.find? (fun ln => pyStartsWith (pyTrim ln) "Memory:") with
  | some ln => some (pyTrim (afterFirstColon ln))
  | none => none

/-- Port extraction (identical in both files): over lines containing
both `LISTEN` and a colon, the last port match of the last such line
wins. -/
def portOf (lines : List String) : Option String :=
  lines.foldl
    (fun acc ln =>
      if containsSub ln "LISTEN" && containsSub ln ":" then
        match (findPorts ln.data).getLast? with
        | some p => some p
        | none => acc
      else acc)
    none

/-- `parse_status_details_systemctl` (appctl): header fields plus
State/Since/Uptime/Memory/Port from a `systemctl status` style block.
Since and Uptime are stored only when non-empty (`if since:`). -/
def parse_status_details_systemctl (output : String) : StatusInfo :=
  let hdr := parse_header_details output
  let lines := (splitLines (strip_ansi output)).map pyRstrip
  let active_line := activeLineOf lines
  let stRaw := if active_line = "" then "UNKNOWN" else stateFromActive active_line
  let su := if active_line = "" then ("", "") else sinceUptimeOf active_line
  { hdr := hdr
    state := normalize_state stRaw
    since := if su.1 = "" then none else some su.1
    uptime := if su.2 = "" then none else some su.2
    memory := memoryOfLast lines
    port := portOf lines }

/-- Raw state word of mwctl `parse_status_details`: RUNNING requires
both `active` and `running` as substrings. -/
def stateFromActiveMw (active_line : String) : String :=
  let low := pyLower active_line
  if containsSub low "active" && containsSub low "running" then "RUNNING"
  else if containsSub low "inactive" || containsSub low "dead" then "STOPPED"
  else if containsSub low "failed" then "FAILED"
  else "UNKNOWN"

/-- Since/Uptime extraction of mwctl `parse_status_details`: with no `;`
present the entire remainder after `" since "` becomes Since. -/
def sinceUptimeOfMw (active_line : String) : String × String :=
  if containsSub active_line " since " then
    let tail := pyTrim (splitFirstD active_line " since ").2
    if containsSub tail ";" then
      let p := splitFirstD tail ";"
      (pyTrim p.1, pyTrim p.2)
    else (pyTrim tail, "")
  else ("", "")

/-- `parse_status_details` (mwctl): same shape as the appctl parser but
with the mwctl state rule, the no-semicolon Since fallback, and
first-match Memory. -/
def parse_status_details (output : String) : StatusInfo :=
  let hdr := parse_header_details output
  let lines := (splitLines (strip_ansi output)).map pyRstrip
  let active_line := activeLineOf lines
  let stRaw := if active_line = "" then "UNKNOWN" else stateFromActiveMw active_line
  let su := if active_line = "" then ("", "") else sinceUptimeOfMw active_line
  { hdr := hdr
    state := normalize_state stRaw
    since := if su.1 = "" then none else some su.1
    uptime := if su.2 = "" then none else some su.2
    memory := memoryOfFirst lines
    port := portOf lines }

/-! ## ArgumentClassifier -/

/-- `BOT_FLAGS` (both files). -/
def BOT_FLAGS : List String := ["--raw"]

/-- `CTL_FLAGS` (appctl). -/
def CTL_FLAGS : List String := ["--exec", "--all"]

/-- `ALLOWED_CMDS` (appctl). -/
def ALLOWED_CMDS : List String :=
  ["info", "status", "logs", "journal", "url", "stop", "start", "restart"]

/-- `ALLOWED_CMDS` (mwctl). -/
def ALLOWED_CMDS_MW : List String :=
  ["info", "status", "logs", "journal", "url", "restart"]

/-- `split_flags` (appctl): allow-list classification into
(core, ctl_flags, bot_flags); anything unrecognized stays in core in
original order. -/
def split_flags : List String → List String × List String × List String
  | [] => ([], [], [])
  | p :: ps =>
    let r := split_flags ps
    if BOT_FLAGS.contains p then (r.1, r.2.1, p :: r.2.2)
    else if CTL_FLAGS.contains p then (r.1, p :: r.2.1, r.2.2)
    else (p :: r.1, r.2.1, r.2.2)

/-- `split_flags` (mwctl): every `--` token that is not a bot flag is
passed through to the tool flags. -/
def split_flags_mw : List String → List String × List String × List String
  | [] => ([], [], [])
  | p :: ps =>
    let r := split_flags_mw ps
    if pyStartsWith p "--" then
      if BOT_FLAGS.contains p then (r.1, r.2.1, p :: r.2.2)
      else (r.1, p :: r.2.1, r.2.2)
    else (p :: r.1, r.2.1, r.2.2)

/-! ## MultiSectionParser (`parse_status_multi_allapps`, appctl) -/

/-- Scanner state: the open section and the open app row. -/
structure MultiState where
  cur : Option HostSection := none
  curApp : Option AppRow := none
deriving Repr, DecidableEq

/-- `flush_app`: append the open app to the open section (only when both
are present) and clear the open app. -/
def flushApp (st : MultiState) : MultiState :=
  match st.cur, st.curApp with
  | some sec, some a => { cur := some { sec with apps := sec.apps ++ [a] }, curApp := none }
  | _, _ => { cur := st.cur, curApp := none }

/-- Assign a two-space-indented sub-line to the open app row by
case-insensitive key prefix. -/
def applyKv (a : AppRow) (key val : String) : AppRow :=
  if pyStartsWith key "service" then { a with service := val }
  else if pyStartsWith key "port" then { a with port := val }
  else if pyStartsWith key "run as" then { a with runAs := val }
  else if pyStartsWith key "state" then { a with state := val }
  else if pyStartsWith key "listen" then { a with listen := val }
  else a

/-- One line of the multi-app scan.  A `Client:`/`Host:`/`Env:` line
opens a section only when none is open; otherwise it overwrites that
field of the open section.  An `APP:` line flushes the open app and
opens a new one.  Matcher order follows the source. -/
def multiStep (st : MultiState) (ln : String) : MultiState :=
  match matchLabelLine "Client" ln with
  | some v =>
    match st.cur with
    | none => { st with cur := some { client := v } }
    | some sec => { st with cur := some { sec with client := v } }
  | none =>
  match matchLabelLine "Host" ln with
  | some v =>
    match st.cur with
    | none => { st with cur := some { host := v } }
    | some sec => { st with cur := some { sec with host := v } }
  | none =>
  match matchLabelLine "Env" ln with
  | some v =>
    match st.cur with
    | none => { st with cur := some { env := v } }
    | some sec => { st with cur := some { sec with env := v } }
  | none =>
  match matchPrefixLine "APP:" ln with
  | some v =>
    let st1 : MultiState :=
      match st.cur with
      | none => { st with cur := some {} }
      | some _ => st
    let st2 := flushApp st1
    { st2 with curApp := some { app := v } }
  | none =>
  match matchKvLine ln, st.curApp with
  | some (key, val), some a => { st with curApp := some (applyKv a key val) }
  | _, _ => st

/-- `flush_section`: close the open app, then emit the open section. -/
def flushSection (st : MultiState) : List HostSection :=
  match st.cur with
  | some _ =>
    match (flushApp st).cur with
    | some sec => [sec]
    | none => []
  | none => []

/-- `parse_status_multi_allapps`: line scan of the legacy all-apps
report.  `flush_section` is invoked once, after the scan, so the result
carries at most one section. -/
def parse_status_multi_allapps (output : String) : List HostSection :=
  let lines := splitLines (strip_ansi output)
  flushSection (lines.foldl multiStep {})

/-! ## ComponentParser (`parse_component_status_section`, appctl) -/

/-- First `Main-State:` line value of the chunk (`""` when absent). -/
def mainStateOf (lines : List String) : String :=
  match lines.filterMap (matchPrefixLine "Main-State:") with
  | v :: _ => v
  | [] => ""

/-- Component scanner state: the open component row fields plus the
emitted rows. -/
structure CompState where
  curName : String := ""
  curState : String := ""
  curUnit : String := ""
  rows : List ComponentRow := []
deriving Repr, DecidableEq

/-- `flush`: emit the open component row when a name is open. -/
def compFlush (st : CompState) : CompState :=
  if st.curName = "" then { st with curName := "", curState := "", curUnit := "" }
  else
    { curName := "", curState := "", curUnit := ""
      rows := st.rows ++ [{ name := st.curName, unit := st.curUnit, state := st.curState }] }

/-- One line of the component scan: `Component:` flushes and opens,
`State:`/`Unit:` set fields of the open component only. -/
def compStep (st : CompState) (ln : String) : CompState :=
  match matchPrefixLine "Component:" ln with
  | some v => { compFlush st with curName := v }
  | none =>
  match matchPrefixLine "State:" ln with
  | some v => if st.curName ≠ "" then { st with curState := v } else st
  | none =>
  match matchLabelLine "Unit" ln with
  | some v => if st.curName ≠ "" then { st with curUnit := v } else st
  | none => st

/-- `parse_component_status_section`: `none` without a `Component:` or
`Main-State:` marker; a synthetic MAIN row from the header `Service`
and the `Main-State:` value when either is present; then the component
rows in input order; `none` again when no row was produced. -/
def parse_component_status_section (section_text : String) : Option ComponentSection :=
  if !containsSub section_text "Component:" && !containsSub section_text "Main-State:" then
    none
  else
    let hdr := parse_header_details section_text
    let lines := splitLines section_text
    let main_state := mainStateOf lines
    let service_unit := hdr.service.getD ""
    let mainRows : List ComponentRow :=
      if service_unit ≠ "" || main_state ≠ "" then
        [{ name := "MAIN", unit := service_unit, state := pyTrim main_state }]
      else []
    let comp := compFlush (lines.foldl compStep {})
    match mainRows ++ comp.rows with
    | [] => none
    | r :: rs =>
      some
        { client := hdr.client.getD "Unknown"
          host := hdr.host.getD "Unknown"
          env := hdr.env.getD "Unknown"
          app := hdr.app.getD "Unknown"
          rows := r :: rs }

/-- A line of only `=` characters (after stripping whitespace). -/
def isEqLine (ln : String) : Bool :=
  let t := trimData ln.data
  !t.isEmpty && t.all (fun c => c = '=')

/-- A line reading `Running on host: ...` after leading whitespace. -/
def isRunHostLine (ln : String) : Bool :=
  (dropPre "Running on host:".data (ln.data.dropWhile isWs)).isSome

/-- Split lines at each three-line delimiter block
(`=` line, `Running on host:` line, `=` line), dropping the delimiter,
and join each chunk back with newlines.  This models the source's
multiline `re.split` on the delimiter shape the tool emits. -/
def splitHostChunks (acc : List String) : List String → List String
  | l1 :: l2 :: l3 :: rest =>
    if isEqLine l1 && isRunHostLine l2 && isEqLine l3 then
      joinNl acc.reverse :: splitHostChunks [] rest
    else splitHostChunks (l1 :: acc) (l2 :: l3 :: rest)
  | ls => [joinNl (acc.reverse ++ ls)]

/-- `split_host_runs`: strip ANSI; without the `Running on host:` marker
the whole text is one chunk; otherwise split on the delimiter blocks,
strip each part, keep the non-empty ones, falling back to the whole
text when none remain. -/
def split_host_runs (output : String) : List String :=
  let text := strip_ansi output
  if !containsSub text "Running on host:" then [text]
  else
    let chunks := ((splitHostChunks [] (splitLines text)).map pyTrim).filter (fun c => c ≠ "")
    if chunks.isEmpty then [text] else chunks

/-! ## UrlProbeParser (`parse_url_result`, appctl) -/

/-- One line of the URL scan: each of the three labels is matched
independently and overwrites its slot. -/
def urlStep (acc : String × String × String) (ln : String) : String × String × String :=
  let u := match matchLabelLine "URL" ln with | some v => v | none => acc.1
  let h := match matchLabelLine "HTTP" ln with | some v => v | none => acc.2.1
  let t := match matchLabelLine "Time" ln with | some v => v | none => acc.2.2
  (u, h, t)

/-- Strip one trailing `s` unit suffix (`t[:-1] if t.endswith("s")`). -/
def stripTrailingS (t : String) : String :=
  if pyEndsWithChar t 's' then pyDropLast t else t

/-- `parse_url_result`: scan every line, each matching line overwriting
the accumulated URL/HTTP/Time value, then strip a trailing `s` from the
time. -/
def parse_url_result (output : String) : String × String × String :=
  let r := (splitLines (strip_ansi output)).foldl urlStep ("", "", "")
  (r.1, r.2.1, stripTrailingS r.2.2)

/-! ## RenderPayload and LayoutBlocks

A Slack block dict is represented by a constructor carrying its
user-visible texts: `header` a plain-text title, `sectionText` a
markdown section, `sectionFields` a field grid, `divider` a divider. -/

inductive Block where
  | header (text : String)
  | sectionText (text : String)
  | sectionFields (fields : List String)
  | divider
deriving Repr, DecidableEq

/-- The rendering payload: the `text` fallback and the optional block
list (`none` when the source returns a dict without a `"blocks"` key). -/
structure Payload where
  text : String
  blocks : Option (List Block) := none
deriving Repr, DecidableEq

/-- A `*Label:*`-style field cell (the `field` helper of the source). -/
def fieldCell (label value : String) : String := "*" ++ label ++ ":*\n" ++ value

/-- `build_usage_text` (appctl), expanded at the default configuration
`APP_BRAND = "AppPilot"`, `SLASH_CMD = "/appctl"`. -/
def build_usage_text : String :=
  "*AppPilot* usage:\n" ++
  "• `/appctl info <CLIENT> <HOST|ENV> [APP] [--all] [--exec]`\n" ++
  "• `/appctl status <CLIENT> <HOST|ENV> [APP] [--all] [--exec]`\n" ++
  "• `/appctl status <CLIENT> <HOST|ENV> <APP> --component <COMP> [--exec]`\n" ++
  "• `/appctl url <CLIENT> <HOST|ENV> <APP> [--component <COMP>] [--exec]`\n" ++
  "• `/appctl restart <CLIENT> <HOST|ENV> <APP> [--component <COMP>] [--all] [--exec]`\n" ++
  "• `/appctl logs <CLIENT> <HOST|ENV> <APP> [--component <COMP>] <logname> [--lines N] [--filter REGEX] [--exec]`\n" ++
  "• `/appctl journal <CLIENT> <HOST|ENV> <APP> [--component <COMP>] [--lines N] [--exec]`\n" ++
  "Flags:\n" ++
  "• `--exec` runs via SSH (bash handles execution)\n" ++
  "• `--all` target all hosts when <HOST|ENV> is an environment\n" ++
  "• `--raw` forces raw output (no dashboard)\n"

/-- The usage text of mwctl `run_mwctl` for empty input. -/
def usage_text_mw : String :=
  "Usage:\n" ++
  "• `/mwctl status PRCC it-s-banethos-t BEP [--exec|--exec-tty]`\n" ++
  "• `/mwctl journal PRCC it-s-banethos-t BEP --lines 20 --exec`\n" ++
  "• Add `--raw` to force raw output"

/-- The one-line summary prepended by appctl `to_raw_response` when
header fields were recovered: badge, Client, Host, Env, App, Service,
State. -/
def raw_summary_header (info : StatusInfo) : String :=
  let client := info.hdr.client.getD "Unknown"
  let host := info.hdr.host.getD "Unknown"
  let env := info.hdr.env.getD "Unknown"
  let app_name := info.hdr.app.getD "Unknown"
  let service := info.hdr.service.getD "Unknown"
  let state := normalize_state info.state
  let icon := state_badge state
  icon ++ " *" ++ client ++ "*  |  *" ++ host ++ "* (" ++ env ++ ")  |  *" ++ app_name ++
    "*\n*Service:* `" ++ service ++ "`  •  *Status:* *" ++ state ++ "*"

/-- `to_raw_response` (appctl): fence the normalized, trimmed, truncated
text (`"(no output)"` when empty) and prepend the one-line summary when
a summary record is present. -/
def to_raw_response (text : String) (summary : Option StatusInfo) : Payload :=
  let cleaned0 := pyTrim (strip_ansi text)
  let cleaned := strTake (if cleaned0 = "" then "(no output)" else cleaned0) 3900
  match summary with
  | none => { text := "```" ++ cleaned ++ "```" }
  | some info => { text := raw_summary_header info ++ "\n```" ++ cleaned ++ "```" }

/-- The summary header of mwctl `to_raw_response`, which also includes
the RunAs field. -/
def raw_summary_header_mw (info : StatusInfo) : String :=
  let client := info.hdr.client.getD "Unknown"
  let host := info.hdr.host.getD "Unknown"
  let env := info.hdr.env.getD "Unknown"
  let app_name := info.hdr.app.getD "Unknown"
  let service := info.hdr.service.getD "Unknown"
  let run_as := info.hdr.runAs.getD "Unknown"
  let state := normalize_state info.state
  let icon := state_badge state
  icon ++ " *" ++ client ++ "*  |  *" ++ host ++ "* (" ++ env ++ ")  |  *" ++ app_name ++
    "*\n*Service:* `" ++ service ++ "`  •  *RunAs:* `" ++ run_as ++ "`  •  *Status:* *" ++ state ++ "*"

/-- `to_raw_response` (mwctl). -/
def to_raw_response_mw (text : String) (summary : Option StatusInfo) : Payload :=
  let cleaned0 := pyTrim (strip_ansi text)
  let cleaned := strTake (if cleaned0 = "" then "(no output)" else cleaned0) 3900
  match summary with
  | none => { text := "```" ++ cleaned ++ "```" }
  | some info => { text := raw_summary_header_mw info ++ "\n```" ++ cleaned ++ "```" }

/-- `build_blocks_like_image` (textually duplicated in both source
files with the same resulting blocks): the single-app status dashboard. -/
def build_blocks_like_image (summary : StatusInfo) : List Block :=
  let client := summary.hdr.client.getD "Unknown"
  let host := summary.hdr.host.getD "Unknown"
  let env := summary.hdr.env.getD "Unknown"
  let app_name := summary.hdr.app.getD "Unknown"
  let service := summary.hdr.service.getD "Unknown"
  let uptime := summary.uptime.getD ""
  let memory := summary.memory.getD ""
  let since := summary.since.getD ""
  let port := summary.port.getD ""
  let state := normalize_state summary.state
  let icon := state_badge state
  let top_line := icon ++ " *" ++ app_name ++ "* on *" ++ host ++ "*"
  let fields : List String :=
    [ fieldCell "Service" ("`" ++ service ++ "`")
      , fieldCell "State" (icon ++ " *" ++ state ++ "*")
      , fieldCell "Uptime" (if uptime = "" then "—" else uptime)
      , fieldCell "Since" (if since = "" then "—" else since)
      , fieldCell "Memory" (if memory = "" then "—" else memory)
      , fieldCell "Port" (if port = "" then "—" else port) ]
  [ Block.header "Status Result"
    , Block.sectionText (top_line ++ "\n*Client:* " ++ client ++ "\n*Environment:* " ++ env)
    , Block.divider
    , Block.sectionFields (fields.take 10) ]

/-- Column truncation with an ellipsis marker (`trunc` helper). -/
def trunc (s : String) (w : Nat) : String :=
  if strLen s ≤ w then s else strTake s (w - 1) ++ "…"

/-- Health-icon tally of a list of app rows (green, yellow, red, gray). -/
def tallyApps (apps : List AppRow) : Nat × Nat × Nat × Nat :=
  apps.foldl
    (fun acc a =>
      let icon := health_icon_from_is_active a.state a.listen
      if icon = "🟢" then (acc.1 + 1, acc.2.1, acc.2.2.1, acc.2.2.2)
      else if icon = "🟡" then (acc.1, acc.2.1 + 1, acc.2.2.1, acc.2.2.2)
      else if icon = "🔴" then (acc.1, acc.2.1, acc.2.2.1 + 1, acc.2.2.2)
      else (acc.1, acc.2.1, acc.2.2.1, acc.2.2.2 + 1))
    (0, 0, 0, 0)

/-- One table row of the multi-app dashboard. -/
def multiTableRow (a : AppRow) : String :=
  let icon := health_icon_from_is_active a.state a.listen
  ljust icon 6 ++ "  " ++ ljust (trunc a.app 16) 16 ++ "  " ++ ljust (trunc a.port 5) 5 ++
    "  " ++ ljust (trunc a.listen 12) 12 ++ "  " ++ trunc a.service 30

/-- Blocks of one multi-app section. -/
def multiSectionBlocks (sec : HostSection) : List Block :=
  let client := if sec.client = "" then "Unknown" else sec.client
  let host := if sec.host = "" then "Unknown" else sec.host
  let env := if sec.env = "" then "Unknown" else sec.env
  let t := tallyApps sec.apps
  let summary_line :=
    "🟢 " ++ toString t.1 ++ "   🟡 " ++ toString t.2.1 ++ "   🔴 " ++ toString t.2.2.1 ++
      "   ⚪ " ++ toString t.2.2.2
  let rows :=
    "HEALTH  APP               PORT   LISTEN        SERVICE" ::
    "------  ----------------  -----  ------------  ------------------------------" ::
    sec.apps.map multiTableRow
  [ Block.header ("Environment Status — " ++ host ++ " (" ++ env ++ ")")
    , Block.sectionText ("*Client:* " ++ client ++ "  •  *Services:* " ++
        toString sec.apps.length ++ "\n" ++ summary_line)
    , Block.sectionText ("```" ++ joinNl (rows.take 120) ++ "```") ]

/-- `build_status_multi_blocks`: sections joined by dividers. -/
def build_status_multi_blocks : List HostSection → List Block
  | [] => []
  | sec :: rest =>
    multiSectionBlocks sec ++
      (rest.foldl (fun acc s => acc ++ Block.divider :: multiSectionBlocks s) [])

/-- Health-icon tally of component rows via `is_active_icon`. -/
def tallyRows (rows : List ComponentRow) : Nat × Nat × Nat × Nat :=
  rows.foldl
    (fun acc r =>
      let icon := is_active_icon r.state
      if icon = "🟢" then (acc.1 + 1, acc.2.1, acc.2.2.1, acc.2.2.2)
      else if icon = "🟡" then (acc.1, acc.2.1 + 1, acc.2.2.1, acc.2.2.2)
      else if icon = "🔴" then (acc.1, acc.2.1, acc.2.2.1 + 1, acc.2.2.2)
      else (acc.1, acc.2.1, acc.2.2.1, acc.2.2.2 + 1))
    (0, 0, 0, 0)

/-- One table row of the component dashboard. -/
def compTableRow (r : ComponentRow) : String :=
  ljust (is_active_icon r.state) 5 ++ "  " ++ ljust (trunc r.name 19) 19 ++ "  " ++
    trunc r.unit 40

/-- Blocks of one component section. -/
def compSectionBlocks (sec : ComponentSection) : List Block :=
  let t := tallyRows sec.rows
  let summary_line :=
    "🟢 " ++ toString t.1 ++ "   🟡 " ++ toString t.2.1 ++ "   🔴 " ++ toString t.2.2.1 ++
      "   ⚪ " ++ toString t.2.2.2
  let rows :=
    "STATE  COMPONENT            UNIT" ::
    "-----  -------------------  ----------------------------------------" ::
    (sec.rows.take 120).map compTableRow
  [ Block.header (sec.app ++ " — " ++ sec.host ++ " (" ++ sec.env ++ ")")
    , Block.sectionText ("*Client:* " ++ sec.client ++ "  •  *Units:* " ++
        toString sec.rows.length ++ "\n" ++ summary_line)
    , Block.sectionText ("```" ++ joinNl rows ++ "```") ]

/-- `build_component_status_blocks`: sections joined by dividers. -/
def build_component_status_blocks : List ComponentSection → List Block
  | [] => []
  | sec :: rest =>
    compSectionBlocks sec ++
      (rest.foldl (fun acc s => acc ++ Block.divider :: compSectionBlocks s) [])

/-- `build_url_dashboard`. -/
def build_url_dashboard (hdr : HeaderInfo) (raw_output : String) : List Block :=
  let client := hdr.client.getD "Unknown"
  let host := hdr.host.getD "Unknown"
  let env := hdr.env.getD "Unknown"
  let app_name := hdr.app.getD "Unknown"
  let r := parse_url_result raw_output
  let url := r.1
  let http_code := r.2.1
  let time_s := r.2.2
  let icon :=
    match pyInt http_code with
    | some code =>
      if 200 ≤ code && code < 300 then "🟢"
      else if 300 ≤ code && code < 400 then "🟡"
      else "🔴"
    | none => if http_code ≠ "" && http_code ≠ "ERROR" then "🔴" else "⚪"
  let blocks :=
    [ Block.header "URL Health Check"
      , Block.sectionText (icon ++ " *" ++ app_name ++ "* on *" ++ host ++ "*\n*Client:* " ++
          client ++ "\n*Environment:* " ++ env)
      , Block.divider
      , Block.sectionFields
          [ "*HTTP:*\n" ++ icon ++ " *" ++ (if http_code = "" then "—" else http_code) ++ "*"
            , "*Time:*\n" ++ (if time_s ≠ "" then time_s ++ "s" else "—") ] ]
  if url ≠ "" then blocks ++ [Block.sectionText ("*URL:*\n" ++ url)] else blocks

/-! ## Engine drivers

The engine part of `run_ctl` / `run_mwctl` is a pure function from the
tokenized command line and the collected subprocess outcome
(exit code, stdout, stderr) to a payload; subprocess spawning and the
exception paths around it are the Command Runner collaborator and are
outside the embedding.  `run_mwctl` reads `core[0]` without guarding
that `core` is non-empty; the resulting `IndexError` (no payload ever
produced) is modelled as `none`. -/

/-- `run_ctl` (appctl), from the tokenized command line
(`shlex.split` of the user text; empty input tokenizes to `[]`). -/
def run_ctl (parts : List String) (returncode : Int) (stdout stderr : String) : Payload :=
  if parts.isEmpty then { text := build_usage_text }
  else
    let sf := split_flags parts
    match sf.1 with
    | [] => { text := build_usage_text }
    | cmd :: restCore =>
      if !ALLOWED_CMDS.contains cmd then
        { text := "Subcommand not allowed: `" ++ cmd ++ "`\n\n" ++ build_usage_text }
      else if (cmd = "info" || cmd = "status") && (cmd :: restCore).length < 3 then
        { text := "ERROR: `" ++ cmd ++ "` requires <CLIENT> <HOST|ENV> [APP]\n\n" ++
            build_usage_text }
      else if !(cmd = "info" || cmd = "status") && (cmd :: restCore).length < 4 then
        { text := "ERROR: `" ++ cmd ++ "` requires <CLIENT> <HOST|ENV> <APP>\n\n" ++
            build_usage_text }
      else
        let exec_mode := sf.2.1.contains "--exec"
        let force_raw := sf.2.2.contains "--raw"
        let combined := pyTrim (if stderr = "" then stdout else stdout ++ "\n" ++ stderr)
        let combined_clean := strip_ansi combined
        let summary_single :=
          if cmd = "status" then some (parse_status_details_systemctl combined_clean) else none
        if returncode ≠ 0 then
          { text := "Exit " ++ toString returncode ++ "\n" ++
              (to_raw_response combined_clean summary_single).text }
        else if cmd = "info" then { text := "```" ++ strTake combined_clean 3900 ++ "```" }
        else if cmd = "url" then
          if force_raw || !exec_mode then
            { text := "```" ++ strTake combined_clean 3900 ++ "```" }
          else
            { text := "URL"
              blocks := some (build_url_dashboard (parse_header_details combined_clean)
                combined_clean) }
        else if cmd = "status" then
          if force_raw || !exec_mode then to_raw_response combined_clean summary_single
          else
            let comp_secs :=
              if containsSub combined_clean "Component:" ||
                  containsSub combined_clean "Main-State:" then
                (split_host_runs combined_clean).filterMap parse_component_status_section
              else []
            if !comp_secs.isEmpty then
              { text := "Status", blocks := some (build_component_status_blocks comp_secs) }
            else if containsSub combined_clean "App    : <ALL>" &&
                containsSub combined_clean "APP:" then
              let sections := parse_status_multi_allapps combined_clean
              if !sections.isEmpty then
                { text := "Status", blocks := some (build_status_multi_blocks sections) }
              else to_raw_response combined_clean summary_single
            else
              match summary_single with
              | some s =>
                if s.state ≠ "" && s.state ≠ "UNKNOWN" then
                  { text := "Status", blocks := some (build_blocks_like_image s) }
                else { text := "```" ++ strTake combined_clean 3900 ++ "```" }
              | none => { text := "```" ++ strTake combined_clean 3900 ++ "```" }
        else to_raw_response combined_clean summary_single

/-- `run_mwctl` (mwctl).  `none` models the unguarded `core[0]`
`IndexError` raised when the input is non-empty but every token was
classified as a flag. -/
def run_mwctl (parts : List String) (returncode : Int) (stdout stderr : String) :
    Option Payload :=
  if parts.isEmpty then some { text := usage_text_mw }
  else
    let sf := split_flags_mw parts
    match sf.1 with
    | [] => none
    | cmd :: restCore =>
      if !ALLOWED_CMDS_MW.contains cmd then
        some { text := "Subcommand not allowed: `" ++ cmd ++ "`" }
      else if (cmd :: restCore).length < 4 then
        some { text := "ERROR: `" ++ cmd ++ "` requires `<CLIENT> <HOST|ENV> <APP>`.\n" ++
            "Example:\n`/mwctl " ++ cmd ++ " PRCC it-s-banethos-t BEP --exec`" }
      else
        let exec_mode := sf.2.1.contains "--exec" || sf.2.1.contains "--exec-tty"
        let force_raw := sf.2.2.contains "--raw" || !exec_mode
        let combined := pyTrim (if stderr = "" then stdout else stdout ++ "\n" ++ stderr)
        let combined_clean := strip_ansi combined
        let summary :=
          if cmd = "status" then some (parse_status_details combined_clean) else none
        if returncode ≠ 0 then
          some { text := "🔴 Exit " ++ toString returncode ++ "\n" ++
              (to_raw_response_mw combined_clean summary).text }
        else if force_raw then some (to_raw_response_mw combined_clean summary)
        else if cmd = "status" then
          match summary with
          | some s =>
            let fb := "Status " ++ s.hdr.app.getD "" ++ " on " ++ s.hdr.host.getD "" ++
              ": " ++ s.state
            some { text := fb, blocks := some (build_blocks_like_image s) }
          | none => some { text := "Status Result", blocks := some (build_blocks_like_image {}) }
        else some { text := "```" ++ strTake combined_clean 3900 ++ "```" }

/-- Does an optional payload's fallback text start with `pre`? -/
def payloadStarts (o : Option Payload) (pre : String) : Bool :=
  match o with
  | some p => pyStartsWith p.text pre
  | none => false

/-! ## Specification-side characterizations and helper lemmas -/

/-- Value of the last line matching a label (used to characterize the
URL-probe scan against the spec's first-seen wording). -/
def lastMatch (label : String) : List String → Option String
  | [] => none
  | ln :: ls =>
    match lastMatch label ls with
    | some v => some v
    | none => matchLabelLine label ln

theorem urlFold_eq_lastMatch (ls : List String) :
    ∀ acc : String × String × String,
      ls.foldl urlStep acc =
        ((lastMatch "URL" ls).getD acc.1,
          (lastMatch "HTTP" ls).getD acc.2.1,
          (lastMatch "Time" ls).getD acc.2.2) := by
  induction ls with
  | nil => intro acc; rfl
  | cons l ls ih =>
    intro acc
    rw [List.foldl_cons, ih]
    simp only [lastMatch]
    cases lastMatch "URL" ls <;> cases lastMatch "HTTP" ls <;> cases lastMatch "Time" ls <;>
      simp only [Option.getD_some, Option.getD_none, urlStep] <;>
      cases matchLabelLine "URL" l <;> cases matchLabelLine "HTTP" l <;>
      cases matchLabelLine "Time" l <;> rfl

theorem stripAnsiAux_no_esc (n : Nat) (cs : List Char)
    (h : ∀ c ∈ cs, c ≠ escChar) : stripAnsiAux n cs = cs := by
  induction n generalizing cs with
  | zero => rfl
  | succ n ih =>
    cases cs with
    | nil => rfl
    | cons c cs =>
      have hc : c ≠ escChar := h c (by simp)
      have hcs : ∀ d ∈ cs, d ≠ escChar := fun d hd => h d (by simp [hd])
      simp only [stripAnsiAux, if_neg hc, ih cs hcs]

theorem data_append (a b : String) : (a ++ b).data = a.data ++ b.data := by
  cases a; cases b; rfl

theorem isPrefixOf_self_append (l m : List Char) : l.isPrefixOf (l ++ m) = true := by
  rw [List.isPrefixOf_iff_prefix]
  exact List.prefix_append l m

theorem pyStartsWith_append (a b : String) : pyStartsWith (a ++ b) a = true := by
  simp only [pyStartsWith, data_append, isPrefixOf_self_append]

theorem strEq_of_data (a b : String) (h : a.data = b.data) : a = b := by
  cases a
  cases b
  exact congrArg String.mk h

/-! ## Concrete report texts used by the claim theorems -/

/-- Two Client/Host/Env groups, each followed by two APP: blocks. -/
def exC2 : String :=
  "Client: C1\nHost: H1\nEnv: E1\n" ++
  "APP: A1\n  Service: s1\n  Port: 1111\n  State: active\n  Listen: listening\n" ++
  "APP: A2\n  Service: s2\n  Port: 2222\n  State: active\n  Listen: listening\n" ++
  "Client: C2\nHost: H2\nEnv: E2\n" ++
  "APP: B1\n  Service: s3\n  Port: 3333\n  State: active\n  Listen: listening\n" ++
  "APP: B2\n  Service: s4\n  Port: 4444\n  State: active\n  Listen: listening\n"

/-- A URL-probe report with two occurrences of each label. -/
def exC3 : String :=
  "URL: http://a\nHTTP: 200\nTime: 3s\nURL: http://b\nHTTP: 404\nTime: 12s"

/-- A systemctl-style block with a since clause and a semicolon. -/
def exC4 : String :=
  "Service: bep.service\nActive: active (running) since Mon 2024-01-01 10:00:00 UTC; 3h 2min ago"

/-- An Active line whose since-remainder carries no semicolon. -/
def exC4noSemi : String := "Active: active (running) since Mon 1 Jan"

/-- Two stray escape characters around a pattern suffix: one removal
pass splices a fresh escape sequence together. -/
def exC5 : String := String.mk [escChar, escChar, '[', 'm', '[', 'm']

/-- A componentized report: header group, Main-State, two components. -/
def exC9 : String :=
  "Client: c\nHost: h\nEnv: e\nApp: DW\nService: dw-main.service\nMain-State: active\n" ++
  "Component: X\nState: active\nUnit: x.service\n" ++
  "Component: Y\nState: active\nUnit: y.service"

/-- The section parsed from `exC9`. -/
def secC9 : ComponentSection :=
  { client := "c", host := "h", env := "e", app := "DW",
    rows := [
      { name := "MAIN", unit := "dw-main.service", state := "active" },
      { name := "X", unit := "x.service", state := "active" },
      { name := "Y", unit := "y.service", state := "active" }] }

/-! ## Claim C1 -/

/-- C1 counterexample: `normalize_state` does not map every unmapped
input to UNKNOWN — the unmapped vocabulary item `"DEGRADED"` is passed
through unchanged, so the function's range is not restricted to the
four canonical states. -/
theorem normalize_state_claim_cex : normalize_state "DEGRADED" ≠ "UNKNOWN" := by decide

/-- C1 (amended): after trimming and upper-casing, the mapped
vocabularies collapse onto RUNNING/STOPPED/FAILED and empty input gives
UNKNOWN, but every other input is returned as its trimmed upper-cased
form (pass-through), not UNKNOWN: each result is either canonical or the
pass-through value. -/
theorem normalize_state_amended :
    (∀ s : String,
        (normalize_state s = "RUNNING" ∨ normalize_state s = "STOPPED" ∨
          normalize_state s = "FAILED" ∨ normalize_state s = "UNKNOWN") ∨
        normalize_state s = pyUpper (pyTrim s)) ∧
    normalize_state "running" = "RUNNING" ∧ normalize_state " Active " = "RUNNING" ∧
    normalize_state "inactive" = "STOPPED" ∧ normalize_state "Dead" = "STOPPED" ∧
    normalize_state "stopped" = "STOPPED" ∧ normalize_state "down" = "FAILED" ∧
    normalize_state "Error" = "FAILED" ∧ normalize_state "failed" = "FAILED" ∧
    normalize_state "" = "UNKNOWN" ∧ normalize_state "   " = "UNKNOWN" ∧
    normalize_state "DEGRADED" = "DEGRADED" := by
  refine ⟨?_, by decide, by decide, by decide, by decide, by decide, by decide, by decide,
    by decide, by decide, by decide, by decide⟩
  intro s
  simp only [normalize_state]
  split
  · simp
  · split
    · simp
    · split
      · simp
      · split
        · simp
        · right; rfl

/-! ## Claim C2 -/

/-- C2 counterexample: on the two-group input the multi-app parser
yields one section, not two. -/
theorem parse_status_multi_claim_cex :
    (parse_status_multi_allapps exC2).length = 1 ∧
      (parse_status_multi_allapps exC2).length ≠ 2 := by decide

/-- Closing the scan emits at most one section. -/
theorem flushSection_length_le_one (st : MultiState) : (flushSection st).length ≤ 1 := by
  unfold flushSection
  cases st.cur
  · simp
  · cases (flushApp st).cur <;> simp

/-- C2 (amended): a `Client:`/`Host:`/`Env:` line opens a section only
when none is open and otherwise overwrites that field of the open
section; sections are emitted only by the single final flush, so the
two-group input yields exactly one section holding all four app rows in
input order (with the labels of the second group), and every input
yields at most one section. -/
theorem parse_status_multi_amended :
    parse_status_multi_allapps exC2 =
      [{ client := "C2", host := "H2", env := "E2",
         apps := [
           { app := "A1", service := "s1", port := "1111", state := "active",
             listen := "listening" },
           { app := "A2", service := "s2", port := "2222", state := "active",
             listen := "listening" },
           { app := "B1", service := "s3", port := "3333", state := "active",
             listen := "listening" },
           { app := "B2", service := "s4", port := "4444", state := "active",
             listen := "listening" }] }] ∧
    ∀ output : String, (parse_status_multi_allapps output).length ≤ 1 := by
  refine ⟨by decide, ?_⟩
  intro output
  unfold parse_status_multi_allapps
  exact flushSection_length_le_one _

/-! ## Claim C3 -/

/-- C3 counterexample: with two `URL:` lines the extracted value is not
the one from the earliest line. -/
theorem parse_url_result_claim_cex :
    (parse_url_result "URL: first\nURL: second").1 ≠ "first" := by decide

/-- C3 (amended): each matching line overwrites the slot, so the
extracted URL/HTTP/Time values are those of the last matching line (the
single trailing `s` stripping on the time value holds as claimed). -/
theorem parse_url_result_amended :
    (∀ output : String,
        parse_url_result output =
          ((lastMatch "URL" (splitLines (strip_ansi output))).getD "",
            (lastMatch "HTTP" (splitLines (strip_ansi output))).getD "",
            stripTrailingS ((lastMatch "Time" (splitLines (strip_ansi output))).getD ""))) ∧
    parse_url_result exC3 = ("http://b", "404", "12") ∧
    parse_url_result "Time: 5" = ("", "", "5") ∧
    parse_url_result "Time: 5ss" = ("", "", "5s") := by
  refine ⟨?_, by decide, by decide, by decide⟩
  intro output
  simp only [parse_url_result, urlFold_eq_lastMatch]

/-! ## Claim C5 -/

/-- C5 counterexample: stripping is not idempotent — removing the inner
match of `ESC ESC [ m [ m` splices together a new escape sequence that
only a second pass removes. -/
theorem strip_ansi_claim_cex : strip_ansi (strip_ansi exC5) ≠ strip_ansi exC5 := by decide

/-- C5 (amended): a single removal pass can splice a new escape
sequence out of the surrounding characters, so idempotence fails in
general; it holds whenever the first pass leaves no escape character
(in particular on all already-clean text). -/
theorem strip_ansi_idem_amended (s : String)
    (h : (strip_ansi s).data.all (fun c => c != escChar) = true) :
    strip_ansi (strip_ansi s) = strip_ansi s := by
  have h2 : ∀ c ∈ (strip_ansi s).data, c ≠ escChar := by
    intro c hc
    simpa using List.all_eq_true.mp h c hc
  show String.mk (stripAnsiAux (strip_ansi s).data.length (strip_ansi s).data) = strip_ansi s
  rw [stripAnsiAux_no_esc _ _ h2]

/-- C5 witness: a realistically colored text satisfies the escape-free
hypothesis and is a fixed point of a second pass. -/
theorem strip_ansi_idem_witness :
    ((strip_ansi "\x1b[31mOK\x1b[0m").data.all (fun c => c != escChar) = true) ∧
    strip_ansi (strip_ansi "\x1b[31mOK\x1b[0m") = strip_ansi "\x1b[31mOK\x1b[0m" :=
  ⟨by decide, strip_ansi_idem_amended "\x1b[31mOK\x1b[0m" (by decide)⟩

/-! ## Claim C6 -/

/-- C6 (confirmed, appctl `split_flags` — the allow-list design the
specification adopts): a token goes to the bot flags iff it is in
`BOT_FLAGS`, to the ctl flags iff it is in `CTL_FLAGS`, and every other
token, including unrecognized `--` flags, stays in core in input order
(stated via order-preserving filters), together with the spec's
concrete example. -/
theorem split_flags_spec :
    (∀ parts : List String,
        split_flags parts =
          (parts.filter (fun p => !BOT_FLAGS.contains p && !CTL_FLAGS.contains p),
            parts.filter (fun p => CTL_FLAGS.contains p),
            parts.filter (fun p => BOT_FLAGS.contains p))) ∧
    split_flags ["status", "ACME", "host1", "App", "--lines", "5", "--exec", "--raw"] =
      (["status", "ACME", "host1", "App", "--lines", "5"], ["--exec"], ["--raw"]) := by
  refine ⟨?_, by decide⟩
  intro parts
  induction parts with
  | nil => rfl
  | cons p ps ih =>
    simp only [split_flags, ih, List.filter_cons]
    by_cases hb : BOT_FLAGS.contains p = true
    · have hp : p = "--raw" := by simpa [BOT_FLAGS] using hb
      subst hp
      simp [BOT_FLAGS, CTL_FLAGS]
    · by_cases hc : CTL_FLAGS.contains p = true
      · have hp : p = "--exec" ∨ p = "--all" := by simpa [CTL_FLAGS] using hc
        rcases hp with hp | hp <;> subst hp <;> simp [BOT_FLAGS, CTL_FLAGS]
      · have hb2 : p ∉ BOT_FLAGS := by simpa using hb
        have hc2 : p ∉ CTL_FLAGS := by simpa using hc
        simp [hb2, hc2]

/-! ## Claim C9 -/

/-- C9 (confirmed): the componentized chunk yields a section of exactly
three rows, the synthetic MAIN row first and then the two components in
input order; and an emitted section never has an empty row list (a chunk
producing zero rows yields no section at all). -/
theorem component_section_spec :
    parse_component_status_section exC9 = some secC9 ∧
    ∀ (t : String) (sec : ComponentSection),
      parse_component_status_section t = some sec → sec.rows ≠ [] := by
  refine ⟨by decide, ?_⟩
  intro t sec h
  simp only [parse_component_status_section] at h
  split at h
  · exact absurd h (by simp)
  · split at h
    · exact absurd h (by simp)
    · rename_i r rs heq
      have hs := Option.some.inj h
      subst hs
      simp

/-- C9 witness: the general no-empty-section conclusion applied to the
concrete chunk. -/
theorem component_section_witness :
    parse_component_status_section exC9 = some secC9 ∧ secC9.rows ≠ [] :=
  ⟨by decide, component_section_spec.2 exC9 secC9 (by decide)⟩

/-! ## Claim C10 -/

/-- C10 (code bug in mwctl): `run_mwctl` reads `core[0]` without
guarding that `core` is non-empty, so the flag-only command line
`--raw` raises an `IndexError` and produces no payload at all (modelled
as `none`), contradicting the contract that every input yields a
payload with non-empty fallback text.  (appctl's `run_ctl` guards this
case and returns the usage text.) -/
theorem run_mwctl_indexerror_bug :
    run_mwctl ["--raw"] 0 "" "" = none ∧
      run_ctl ["--raw"] 0 "" "" = { text := build_usage_text } := by decide

/-! ## Claim C4 -/

/-- C4 counterexample: in appctl `parse_status_details_systemctl` an
Active line whose since-remainder has no semicolon leaves Since unset
(the claimed fallback to the entire remainder exists only in the mwctl
variant). -/
theorem parse_status_details_since_claim_cex :
    (parse_status_details_systemctl exC4noSemi).since = none := by decide

/-- C4 (amended): the concrete since-clause example parses as claimed in
both single-unit parsers; when the since-remainder holds a semicolon it
is split into Since and Uptime; but with no semicolon present appctl's
`parse_status_details_systemctl` leaves both Since and Uptime unset,
while only mwctl's `parse_status_details` assigns the entire remainder
to Since (Uptime unset). -/
theorem parse_status_details_since_amended :
    ((parse_status_details_systemctl exC4).state = "RUNNING" ∧
      (parse_status_details_systemctl exC4).since = some "Mon 2024-01-01 10:00:00 UTC" ∧
      (parse_status_details_systemctl exC4).uptime = some "3h 2min ago" ∧
      (parse_status_details exC4).state = "RUNNING" ∧
      (parse_status_details exC4).since = some "Mon 2024-01-01 10:00:00 UTC" ∧
      (parse_status_details exC4).uptime = some "3h 2min ago") ∧
    (∀ (output line : String),
        activeLineOf ((splitLines (strip_ansi output)).map pyRstrip) = line →
        containsSub line " since " = true →
        containsSub (pyTrim (splitFirstD line " since ").2) ";" = false →
        (parse_status_details_systemctl output).since = none ∧
          (parse_status_details_systemctl output).uptime = none) ∧
    (∀ (output line tl : String),
        activeLineOf ((splitLines (strip_ansi output)).map pyRstrip) = line →
        containsSub line " since " = true →
        tl = pyTrim (splitFirstD line " since ").2 →
        containsSub tl ";" = false →
        pyTrim tl ≠ "" →
        (parse_status_details output).since = some (pyTrim tl) ∧
          (parse_status_details output).uptime = none) := by
  refine ⟨by decide, ?_, ?_⟩
  · intro output line h1 h2 h3
    have hne : line ≠ "" := by
      intro he
      subst he
      exact absurd h2 (by decide)
    simp only [parse_status_details_systemctl, h1, if_neg hne, sinceUptimeOf, h2, if_pos, h3]
    simp [sinceUptimeOf, h2, h3]
  · intro output line tl h1 h2 ht h3 h4
    have hne : line ≠ "" := by
      intro he
      subst he
      exact absurd h2 (by decide)
    subst ht
    simp only [parse_status_details, h1, if_neg hne, sinceUptimeOfMw, h2, if_pos, h3]
    simp [sinceUptimeOfMw, h2, h3, h4]

/-- C4 witness: the two general conclusions applied to the concrete
no-semicolon Active line. -/
theorem parse_status_details_since_witness :
    ((parse_status_details_systemctl exC4noSemi).since = none ∧
      (parse_status_details_systemctl exC4noSemi).uptime = none) ∧
    ((parse_status_details exC4noSemi).since = some "Mon 1 Jan" ∧
      (parse_status_details exC4noSemi).uptime = none) :=
  ⟨parse_status_details_since_amended.2.1 exC4noSemi
      "Active: active (running) since Mon 1 Jan" (by decide) (by decide) (by decide),
    parse_status_details_since_amended.2.2 exC4noSemi
      "Active: active (running) since Mon 1 Jan" "Mon 1 Jan"
      (by decide) (by decide) (by decide) (by decide) (by decide)⟩

/-! ## Claim C7 -/

/-- C7 counterexample: on the status/exec/zero-exit/no-marker/UNKNOWN
path the raw fallback is the bare fenced text even though header fields
(here `Client`) were recovered — no one-line summary is prepended (the
text holds no `*Service:*` fragment, which every summary line carries). -/
theorem run_ctl_status_fallback_claim_cex :
    run_ctl ["status", "C", "H", "--exec"] 0 "Client: Acme\nActive: active (exited)" "" =
      { text := "```Client: Acme\nActive: active (exited)```" } ∧
    (parse_status_details_systemctl
        (strip_ansi (pyTrim "Client: Acme\nActive: active (exited)"))).hdr.client =
      some "Acme" ∧
    containsSub "```Client: Acme\nActive: active (exited)```" "*Service:*" = false := by
  decide

/-- C7 (amended): for subcommand status with the execute flag, no
force-raw flag, exit code zero, no component or multi-app markers and a
parsed UNKNOWN state, the engine falls back to RAW as the bare fenced
text without a summary line; the one-line summary combining badge,
Client, Host, Env, App, Service and State is prepended by
`to_raw_response` (the force-raw / non-exec and non-zero-exit raw
paths), whenever a summary record is present. -/
theorem run_ctl_status_fallback_amended :
    (∀ (parts : List String) (so : String) (rest : List String),
        (split_flags parts).1 = "status" :: rest →
        2 ≤ rest.length →
        (split_flags parts).2.1.contains "--exec" = true →
        (split_flags parts).2.2.contains "--raw" = false →
        containsSub (strip_ansi (pyTrim so)) "Component:" = false →
        containsSub (strip_ansi (pyTrim so)) "Main-State:" = false →
        containsSub (strip_ansi (pyTrim so)) "App    : <ALL>" = false →
        (parse_status_details_systemctl (strip_ansi (pyTrim so))).state = "UNKNOWN" →
        run_ctl parts 0 so "" =
          { text := "```" ++ strTake (strip_ansi (pyTrim so)) 3900 ++ "```" }) ∧
    (∀ (text : String) (info : StatusInfo),
        (to_raw_response text (some info)).text =
          raw_summary_header info ++ "\n" ++ (to_raw_response text none).text ∧
        (to_raw_response text (some info)).blocks = none) := by
  constructor
  · intro parts so rest h1 h2 h3 h4 h5 h6 h7 h8
    have hpne : parts.isEmpty = false := by
      cases parts with
      | nil => simp [split_flags] at h1
      | cons a as => rfl
    have hlen : ¬ (("status" :: rest).length < 3) := by
      simp only [List.length_cons]
      omega
    have hlen2 := decide_eq_false hlen
    simp only [run_ctl, hpne, h1]
    simp only [Bool.false_eq_true, if_false, hlen2, h3, h4, h5, h6, h7]
    simp [h5, h6, h7, h8, ALLOWED_CMDS]
  · intro text info
    constructor
    · apply strEq_of_data
      have hsplit : ("\n```" : String).data = ("\n" : String).data ++ ("```" : String).data := by
        decide
      simp [to_raw_response, data_append, hsplit, List.append_assoc]
    · rfl

/-- C7 witness: the fallback conclusion at a concrete status call whose
output has a recovered Host header and an UNKNOWN state, and the
summary-prepend conclusion at a concrete record. -/
theorem run_ctl_status_fallback_witness :
    run_ctl ["status", "X", "Y", "--exec"] 0 "Host: h1\nActive: active (exited)" "" =
      { text := "```Host: h1\nActive: active (exited)```" } ∧
    (to_raw_response "hello" (some { state := "RUNNING" })).text =
      raw_summary_header { state := "RUNNING" } ++ "\n" ++
        (to_raw_response "hello" none).text :=
  ⟨run_ctl_status_fallback_amended.1 ["status", "X", "Y", "--exec"]
      "Host: h1\nActive: active (exited)" ["X", "Y"] (by decide) (by decide) (by decide)
      (by decide) (by decide) (by decide) (by decide) (by decide),
    (run_ctl_status_fallback_amended.2 "hello" { state := "RUNNING" }).1⟩

/-! ## Claim C8 -/

/-- C8 counterexample: mwctl's non-zero-exit payload exists but its
fallback text does not begin with `Exit` — the failure icon comes
first. -/
theorem exit_code_raw_claim_cex :
    payloadStarts (run_mwctl ["status", "P", "H", "A", "--exec"] 137 "boom" "") "Exit" = false ∧
      (run_mwctl ["status", "P", "H", "A", "--exec"] 137 "boom" "").isSome = true := by decide

/-- C8 (amended): a non-zero exit code always overrides the layout
decision with a blockless RAW payload, but the `Exit <code>` prefix is
engine-specific: appctl's `run_ctl` text begins with `Exit <code>`
while mwctl's `run_mwctl` text begins with `🔴 Exit <code>`. -/
theorem exit_code_raw_amended :
    (∀ (parts : List String) (rc : Int) (so se cmd : String) (rest : List String),
        (split_flags parts).1 = cmd :: rest →
        ALLOWED_CMDS.contains cmd = true →
        3 ≤ rest.length →
        rc ≠ 0 →
        pyStartsWith (run_ctl parts rc so se).text ("Exit " ++ toString rc ++ "\n") = true ∧
          (run_ctl parts rc so se).blocks = none) ∧
    (∀ (parts : List String) (rc : Int) (so se cmd : String) (rest : List String),
        (split_flags_mw parts).1 = cmd :: rest →
        ALLOWED_CMDS_MW.contains cmd = true →
        3 ≤ rest.length →
        rc ≠ 0 →
        payloadStarts (run_mwctl parts rc so se) ("🔴 Exit " ++ toString rc ++ "\n") = true) := by
  constructor
  · intro parts rc so se cmd rest h1 h2 h3 hrc
    have hpne : parts.isEmpty = false := by
      cases parts with
      | nil => simp [split_flags] at h1
      | cons a as => rfl
    have hlen3 : ¬ ((cmd :: rest).length < 3) := by
      simp only [List.length_cons]
      omega
    have hlen4 : ¬ ((cmd :: rest).length < 4) := by
      simp only [List.length_cons]
      omega
    simp only [run_ctl, hpne, h1, h2, Bool.false_eq_true, if_false,
      decide_eq_false hlen3, decide_eq_false hlen4]
    simp [hrc, pyStartsWith_append]
  · intro parts rc so se cmd rest h1 h2 h3 hrc
    have hpne : parts.isEmpty = false := by
      cases parts with
      | nil => simp [split_flags_mw] at h1
      | cons a as => rfl
    have hlen4 : ¬ ((cmd :: rest).length < 4) := by
      simp only [List.length_cons]
      omega
    have hlen4b : ¬ (rest.length + 1 < 4) := by omega
    simp only [run_mwctl, hpne, h1, h2, Bool.false_eq_true, if_false, decide_eq_false hlen4]
    simp [hlen4b, hrc, payloadStarts, pyStartsWith_append]

/-- C8 witness: exit code 137 at concrete invocations of both engines. -/
theorem exit_code_raw_witness :
    (pyStartsWith (run_ctl ["restart", "C", "H", "A"] 137 "boom" "").text "Exit 137\n" = true ∧
      (run_ctl ["restart", "C", "H", "A"] 137 "boom" "").blocks = none) ∧
    payloadStarts (run_mwctl ["status", "PRCC", "h", "BEP", "--exec"] 137 "boom output" "")
      "🔴 Exit 137\n" = true :=
  ⟨exit_code_raw_amended.1 ["restart", "C", "H", "A"] 137 "boom" "" "restart" ["C", "H", "A"]
      (by decide) (by decide) (by decide) (by decide),
    exit_code_raw_amended.2 ["status", "PRCC", "h", "BEP", "--exec"] 137 "boom output" ""
      "status" ["PRCC", "h", "BEP"] (by decide) (by decide) (by decide) (by decide)⟩
